import Mathlib

/-!
Verification development for the AI-Data-Analyst-Chatbot backend (`app.py`).

The Flask backend is shallowly embedded: each Python function of the serving
path (`prepare_chart_data`, `get_ai_visualizations`, `get_ai_insights`,
`upload_file`'s global-state update, and `chat_with_data`) becomes an
executable Lean definition.  Network calls to the language model and the
subprocess execution are external effects; they enter the embedding as
explicit oracle parameters (an `Except` value for a model call that may
raise, a function `String → String` for a successful model call, and an
`ExecOutcome` for the child process).  The pandas engine is modelled at the
level of the operations the code uses (column membership, group-by with sum
or size, row sampling, projection, record serialization), following the
collaborator contract the code relies on.
-/

namespace AIDataAnalystChatbot

/-! ## Python string primitives used by `app.py` -/

/-- Whitespace characters removed by Python `str.strip()` (the ASCII
whitespace set ` \t\n\r\x0b\x0c`). -/
def pyWs (c : Char) : Bool :=
  c = ' ' || c = '\t' || c = '\n' || c = '\r' || c = '\x0b' || c = '\x0c'

/-- Python `str.strip()`: remove leading and trailing whitespace. -/
def pyStrip (s : String) : String :=
  ⟨((s.data.dropWhile pyWs).reverse.dropWhile pyWs).reverse⟩

/-- Python `str.rstrip()`: remove trailing whitespace only.  (Not called by
`app.py`; used to state what the specification's "trailing whitespace
trimmed" wording would compute.) -/
def pyRstrip (s : String) : String :=
  ⟨(s.data.reverse.dropWhile pyWs).reverse⟩

/-- Does `pat` occur at the start of `hay`? -/
def startsWithPat : List Char → List Char → Bool
  | p :: ps, c :: cs => p == c && startsWithPat ps cs
  | [], _ => true
  | _, [] => false

/-- Does `pat` occur anywhere in `hay`?  Models Python's substring test
`pat in hay` for strings. -/
def hasSubPat (pat : List Char) : List Char → Bool
  | [] => pat.isEmpty
  | c :: cs => startsWithPat pat (c :: cs) || hasSubPat pat cs

/-- Python `pat in s` for strings. -/
def strContains (s pat : String) : Bool :=
  hasSubPat pat.data s.data

/-- Python `s.find(c)` for a single-character needle: index of the first
occurrence, `None` standing for Python's `-1`. -/
def pyFind (c : Char) (s : String) : Option Nat :=
  s.data.findIdx? (· = c)

/-- Python `s.rfind(c)` for a single-character needle: index of the last
occurrence, `None` standing for Python's `-1`. -/
def pyRfind (c : Char) (s : String) : Option Nat :=
  match s.data.reverse.findIdx? (· = c) with
  | some i => some (s.data.length - 1 - i)
  | none => none

/-- Line 300 of `app.py`: `filepath.replace('\\', '\\\\')`.  The pattern is a
single character, so Python's left-to-right nonoverlapping replacement is
exactly a character-by-character expansion. -/
def escapeBackslashes (s : String) : String :=
  ⟨go s.data⟩
where
  go : List Char → List Char
  | [] => []
  | c :: rest => if c = '\\' then '\\' :: '\\' :: go rest else c :: go rest

/-- The specification's wording for the same transformation: "each backslash
doubled".  Stated separately so the source-derived `escapeBackslashes` can be
proved to refine it. -/
def specDoubledBackslashes : List Char → List Char
  | [] => []
  | c :: rest =>
      (if c = '\\' then ['\\', '\\'] else [c]) ++ specDoubledBackslashes rest

/-- Hex digit value, as used by percent-decoding (codepoint arithmetic:
digits, then lowercase `a`-`f`, then uppercase `A`-`F`). -/
def hexVal (c : Char) : Option Nat :=
  let n := c.toNat
  if 48 ≤ n && n ≤ 57 then some (n - 48)
  else if 97 ≤ n && n ≤ 102 then some (n - 87)
  else if 65 ≤ n && n ≤ 70 then some (n - 55)
  else none

/-- `urllib.parse.unquote`, modelled for ASCII percent-escapes: `%XX` with two
hex digits decodes to the corresponding character, malformed escapes are left
verbatim.  (Used only to decode the optional `metrics` field.) -/
def pyUnquoteChars : List Char → List Char
  | '%' :: h1 :: h2 :: rest =>
      match hexVal h1, hexVal h2 with
      | some a, some b => Char.ofNat (16 * a + b) :: pyUnquoteChars rest
      | _, _ => '%' :: pyUnquoteChars (h1 :: h2 :: rest)
  | c :: rest => c :: pyUnquoteChars rest
  | [] => []

/-- `urllib.parse.unquote` on strings. -/
def pyUnquote (s : String) : String :=
  ⟨pyUnquoteChars s.data⟩

/-! ## JSON values and `json.loads`

The model output is parsed with Python's `json.loads`.  We embed JSON values
as `JVal` and give an executable recursive-descent parser.  Numeric literals
are modelled as integers (the recipes and insights the code consumes never
require fractional literals; a fractional literal simply fails to parse in
the model, which is the conservative direction for every claim proved
below), and `\uXXXX` string escapes are not modelled. -/

inductive JVal where
  | null
  | bool (b : Bool)
  | num (n : Int)
  | str (s : String)
  | arr (elems : List JVal)
  | obj (fields : List (String × JVal))

/-- JSON whitespace skipping. -/
def skipWs : List Char → List Char
  | c :: rest =>
      if c = ' ' || c = '\t' || c = '\n' || c = '\r' then skipWs rest
      else c :: rest
  | [] => []

/-- Decode a string escape character. -/
def escChar (c : Char) : Option Char :=
  if c = '"' then some '"'
  else if c = '\\' then some '\\'
  else if c = '/' then some '/'
  else if c = 'n' then some '\n'
  else if c = 't' then some '\t'
  else if c = 'r' then some '\r'
  else if c = 'b' then some '\x08'
  else if c = 'f' then some '\x0c'
  else none

/-- Parse the remainder of a JSON string literal (the opening quote already
consumed), returning the characters and the rest of the input. -/
def parseStrChars : List Char → Option (List Char × List Char)
  | [] => none
  | '"' :: rest => some ([], rest)
  | '\\' :: e :: rest =>
      match escChar e, parseStrChars rest with
      | some c, some (s, r) => some (c :: s, r)
      | _, _ => none
  | c :: rest =>
      match parseStrChars rest with
      | some (s, r) => some (c :: s, r)
      | none => none

/-- Digits at the front of the input. -/
def takeDigits (cs : List Char) : List Char × List Char :=
  (cs.takeWhile Char.isDigit, cs.dropWhile Char.isDigit)

/-- Numeric value of a digit list. -/
def digitsToNat (ds : List Char) : Nat :=
  ds.foldl (fun acc c => 10 * acc + (c.toNat - '0'.toNat)) 0

mutual

/-- Fueled recursive-descent JSON parser: one value plus remaining input. -/
def parseJ : Nat → List Char → Option (JVal × List Char)
  | 0, _ => none
  | fuel + 1, cs =>
      match skipWs cs with
      | [] => none
      | c :: rest =>
          if c = 'n' then
            match rest with
            | 'u' :: 'l' :: 'l' :: r => some (.null, r)
            | _ => none
          else if c = 't' then
            match rest with
            | 'r' :: 'u' :: 'e' :: r => some (.bool true, r)
            | _ => none
          else if c = 'f' then
            match rest with
            | 'a' :: 'l' :: 's' :: 'e' :: r => some (.bool false, r)
            | _ => none
          else if c = '"' then
            match parseStrChars rest with
            | some (s, r) => some (.str ⟨s⟩, r)
            | none => none
          else if c = '-' then
            match takeDigits rest with
            | ([], _) => none
            | (ds, r) => some (.num (-(digitsToNat ds : Int)), r)
          else if c.isDigit then
            match takeDigits (c :: rest) with
            | ([], _) => none
            | (ds, r) => some (.num (digitsToNat ds), r)
          else if c = '[' then
            match skipWs rest with
            | ']' :: r => some (.arr [], r)
            | r2 => parseArrItems fuel r2
          else if c = '{' then
            match skipWs rest with
            | '}' :: r => some (.obj [], r)
            | r2 => parseObjItems fuel r2
          else none

/-- Parse the elements of a nonempty JSON array (after `[`). -/
def parseArrItems : Nat → List Char → Option (JVal × List Char)
  | 0, _ => none
  | fuel + 1, cs =>
      match parseJ fuel cs with
      | none => none
      | some (v, r) =>
          match skipWs r with
          | ']' :: r2 => some (.arr [v], r2)
          | ',' :: r2 =>
              match parseArrItems fuel r2 with
              | some (.arr vs, r3) => some (.arr (v :: vs), r3)
              | _ => none
          | _ => none

/-- Parse the members of a nonempty JSON object (after `{`). -/
def parseObjItems : Nat → List Char → Option (JVal × List Char)
  | 0, _ => none
  | fuel + 1, cs =>
      match skipWs cs with
      | '"' :: r =>
          match parseStrChars r with
          | none => none
          | some (k, r2) =>
              match skipWs r2 with
              | ':' :: r3 =>
                  match parseJ fuel r3 with
                  | none => none
                  | some (v, r4) =>
                      match skipWs r4 with
                      | '}' :: r5 => some (.obj [(⟨k⟩, v)], r5)
                      | ',' :: r5 =>
                          match parseObjItems fuel r5 with
                          | some (.obj kvs, r6) => some (.obj ((⟨k⟩, v) :: kvs), r6)
                          | _ => none
                      | _ => none
              | _ => none
      | _ => none

end

/-- Python `json.loads`: parse the whole string as one JSON document. -/
def jsonParse (s : String) : Option JVal :=
  match parseJ (2 * s.length + 2) s.data with
  | some (v, rest) => if skipWs rest = [] then some v else none
  | none => none

/-! ## The dataset and the pandas operations the code uses

Uploaded CSVs become pandas DataFrames.  We model a dataframe as named
columns over scalar cells, with the dtype information the code consults
(`pd.api.types.is_numeric_dtype`) recorded as the set of numeric columns.
The pandas operations themselves (`groupby(...).sum()`, `groupby(...).size()`,
`sample`, column projection, `to_json(orient='records')`) are modelled per
the collaborator contract of spec section 6: group-by with aggregate, uniform
sampling without replacement, and JSON row-record serialization.  Group
ordering is first-occurrence order; no claim below depends on the order of
groups. -/

/-- A scalar cell of the dataset. -/
inductive Value where
  | int (n : Int)
  | str (s : String)
deriving DecidableEq

/-- An in-memory tabular dataset: column names, the subset of columns with a
numeric dtype, and rows aligned with `cols`. -/
structure DataFrame where
  cols : List String
  numericCols : List String
  rows : List (List Value)

/-- The cell of row `r` at column `c`. -/
def cellAt (df : DataFrame) (r : List Value) (c : String) : Value :=
  r.getD (df.cols.indexOf c) (.str "")

/-- All values of column `c`, top to bottom. -/
def colValues (df : DataFrame) (c : String) : List Value :=
  df.rows.map (fun r => cellAt df r c)

/-- Distinct values in first-occurrence order: the group keys of
`df.groupby(c)`. -/
def firstOccs (l : List Value) : List Value :=
  l.foldl (fun acc v => if v ∈ acc then acc else acc ++ [v]) []

/-- The rows of the group with key `key` under `df.groupby(x)`. -/
def groupRows (df : DataFrame) (x : String) (key : Value) : List (List Value) :=
  df.rows.filter (fun r => cellAt df r x = key)

/-- Numeric reading of a cell (sums are only taken over numeric-dtype
columns, whose cells are integers in a well-formed dataframe). -/
def valToInt : Value → Int
  | .int n => n
  | .str _ => 0

/-- `df.groupby(x)[y].sum()` at one group key. -/
def groupSum (df : DataFrame) (x y : String) (key : Value) : Int :=
  ((groupRows df x key).map (fun r => valToInt (cellAt df r y))).sum

/-- `df.groupby(x).size()` at one group key. -/
def groupSize (df : DataFrame) (x : String) (key : Value) : Int :=
  ((groupRows df x key).length : Int)

/-- `df.sample(n=...)` is randomized; the engine's choice enters the model as
a list of row indices.  The pandas contract for sampling without replacement
is that the indices are distinct, in range, and `min(500, len(df))` many;
those facts appear as hypotheses where a claim needs them. -/
def sampleRows (df : DataFrame) (choice : List Nat) : List (List Value) :=
  choice.filterMap (fun i => df.rows[i]?)

/-- One serialized row-record of `to_json(orient='records')`. -/
abbrev Record := List (String × Value)

/-! ## `prepare_chart_data` (the Chart Data Extractor, `app.py` lines 49-84) -/

/-- A Python exception escaping a function. -/
inductive PyErr where
  | typeError
  | attributeError
deriving DecidableEq

/-- Python truthiness of `recipe.get(...)`'s result: `None`, `False`, `0`,
`""`, `[]` and `{}` are falsy. -/
def truthy : Option JVal → Bool
  | none => false
  | some .null => false
  | some (.bool b) => b
  | some (.num n) => n != 0
  | some (.str s) => s != ""
  | some (.arr xs) => !xs.isEmpty
  | some (.obj kvs) => !kvs.isEmpty

/-- Python `dict.get(k)` on a parsed JSON object (later duplicate keys win,
as in `dict` construction). -/
def objGet (fields : List (String × JVal)) (k : String) : Option JVal :=
  (fields.reverse.find? (fun kv => kv.1 == k)).map (·.2)

/-- Python `needle in v` where `needle` is a string and `v` is an arbitrary
parsed JSON value: substring test on strings, membership on arrays, key
membership on objects, and a `TypeError` on numbers, booleans and `None`. -/
def pyInStr (needle : String) : JVal → Except PyErr Bool
  | .str s => .ok (strContains s needle)
  | .arr xs => .ok (xs.any (fun e => match e with | .str s => s == needle | _ => false))
  | .obj kvs => .ok (kvs.any (fun kv => kv.1 == needle))
  | _ => .error .typeError

/-- Pandas `v in df.columns`: `Index.__contains__` hashes the key BEFORE its
own try/except, so an unhashable key (a JSON array or object) raises
`TypeError`; hashable keys that are not column labels return `False` without
raising.  CSV headers are strings. -/
def dfContains (df : DataFrame) : JVal → Except PyErr Bool
  | .str s => .ok (df.cols.contains s)
  | .arr _ => .error .typeError
  | .obj _ => .error .typeError
  | _ => .ok false

/-- The string payload of a JSON value.  Applied only where the guard has
already forced the value to be a string: a non-string reaching the `try`
block is impossible, because arrays/objects raised `TypeError` at the
column-membership test and truthy numbers/booleans at the substring test. -/
def strOf : JVal → String
  | .str s => s
  | _ => ""

/-- Python `chart_type == "<name>"` for a parsed JSON value: true exactly for
the equal string. -/
def isChartType (chart_type : JVal) (name : String) : Bool :=
  match chart_type with
  | .str s => s == name
  | _ => false

/-- The `try:` block of `prepare_chart_data` (lines 62-84), with `x`/`y` the
recipe's column strings (the guard has ensured `x` is a present column and
that any value reaching the block is a string; see `strOf`).  Every pandas
exception inside the block is caught and turned into `None`.  That includes
the duplicate-label failures when the two bindings coincide: the sum
branch's `reset_index()` refuses to insert the `x` label when the series is
already named `x` (= `y`), the count branch's rename to `y = x` produces
duplicate columns on which `to_json(orient='records')` raises, and the
scatter branch's `[[x, y]]` selection with `x = y` likewise fails at
`to_json`.  The count branch's `reset_index(name='Count')` also collides
when `x` is itself the label `Count`, and the scatter selection raises
`KeyError` when `y` is a marker rather than a column — all caught, all
`None`. -/
def prepareChartTry (df : DataFrame) (chart_type : JVal) (x y : String)
    (choice : List Nat) : Option (List Record) :=
  if isChartType chart_type "Bar Chart" || isChartType chart_type "Pie Chart" ||
      isChartType chart_type "Line Chart" then
    if strContains y "Count of" then
      -- groupby(x).size().reset_index(name='Count').rename(columns={'Count': y})
      if x == "Count" || y == x then none
      else
        some ((firstOccs (colValues df x)).map
          (fun k => [(x, k), (y, .int (groupSize df x k))]))
    else
      -- groupby(x)[y].sum().reset_index(), guarded by is_numeric_dtype(df[y])
      if df.numericCols.contains y then
        if y == x then none
        else
          some ((firstOccs (colValues df x)).map
            (fun k => [(x, k), (y, .int (groupSum df x y k))]))
      else none
  else if isChartType chart_type "Scatter Plot" then
    -- df.sample(n=min(500, len(df))) then projection onto [[x, y]]
    if df.cols.contains y && !(y == x) then
      some ((sampleRows df choice).map
        (fun r => [(x, cellAt df r x), (y, cellAt df r y)]))
    else none
  else if isChartType chart_type "Histogram" then
    some (df.rows.map (fun r => [(x, cellAt df r x)]))
  else none

/-- `prepare_chart_data(df, recipe)` (lines 49-84).  The recipe is a parsed
JSON value; `recipe.get` raises `AttributeError` on a non-object.  The
column guard (lines 54-59) runs OUTSIDE the `try`, so it can raise a
`TypeError` to the caller in two ways: an unhashable (array/object) binding
raises at the `in df.columns` membership test, and a truthy number/boolean
`y_column` that is not a column label raises at `"Count of" not in y_col`.
The nesting below follows Python's left-to-right short-circuit evaluation of
`x_col not in df.columns or (y_col not in df.columns and "Count of" not in
y_col)`.  The randomized `df.sample` choice is passed explicitly. -/
def prepare_chart_data (df : DataFrame) (recipe : JVal) (choice : List Nat) :
    Except PyErr (Option (List Record)) :=
  match recipe with
  | .obj fields =>
      let chart_type := objGet fields "chart_type"
      let x_colO := objGet fields "x_column"
      let y_colO := objGet fields "y_column"
      if !truthy x_colO || !truthy y_colO then .ok none
      else
        let x_col := x_colO.getD .null
        let y_col := y_colO.getD .null
        match dfContains df x_col with
        | .error e => .error e
        | .ok x_in =>
            if !x_in then .ok none
            else
              match dfContains df y_col with
              | .error e => .error e
              | .ok y_in =>
                  if y_in then
                    .ok (prepareChartTry df (chart_type.getD .null)
                      (strOf x_col) (strOf y_col) choice)
                  else
                    match pyInStr "Count of" y_col with
                    | .error e => .error e
                    | .ok marker =>
                        if !marker then .ok none
                        else
                          .ok (prepareChartTry df (chart_type.getD .null)
                            (strOf x_col) (strOf y_col) choice)
  | _ => .error .attributeError

/-! ## `get_ai_visualizations` (the Analysis Planner, lines 87-147) -/

/-- Locate the first `[` and the last `]` of the raw model response and slice
out the substring between them, inclusive (lines 129-134 and, identically,
lines 194-199).  `none` models the `-1`/`-1` case that raises
`ValueError("... did not contain a valid JSON array.")`. -/
def extractBracketed (s : String) : Option String :=
  match pyFind '[' s, pyRfind ']' s with
  | some i, some j => some ⟨(s.data.drop i).take (j + 1 - i)⟩
  | _, _ => none

/-- Why the planner's `except` branch fired.  The returned object is
`{"error": "Failed to get AI analysis", "details": str(e)}`; the `details`
text is abstracted to the exception's source. -/
inductive PlannerFailure where
  | apiFailure
  | noJsonArray
  | jsonDecodeError
  | recipeException (e : PyErr)
deriving DecidableEq

/-- Result of the planner: the enriched recipe list, or the structured error
object returned from the `except` branch (a value, not a raised exception). -/
inductive PlannerResult where
  | ok (charts : List JVal)
  | error (details : PlannerFailure)

/-- Python truthiness of `chart_data` (`None` or an empty list are falsy). -/
def truthyPayload : Option (List Record) → Bool
  | none => false
  | some l => !l.isEmpty

/-- Dict assignment `recipe['chart_data'] = ...`: replace an existing key in
place or append a new one. -/
def objSet (fields : List (String × JVal)) (k : String) (v : JVal) :
    List (String × JVal) :=
  if fields.any (fun kv => kv.1 == k) then
    fields.map (fun kv => if kv.1 == k then (kv.1, v) else kv)
  else fields ++ [(k, v)]

/-- Serialize a chart payload back to a JSON value. -/
def payloadToJVal (p : List Record) : JVal :=
  .arr (p.map (fun rec => .obj (rec.map (fun kv =>
    (kv.1, match kv.2 with | .int n => JVal.num n | .str s => JVal.str s)))))

/-- Attach `chart_data` to a recipe object. -/
def withChartData (recipe : JVal) (p : List Record) : JVal :=
  match recipe with
  | .obj fields => .obj (objSet fields "chart_data" (payloadToJVal p))
  | v => v

/-- The planner's per-recipe loop (lines 137-142): each parsed recipe is fed
to `prepare_chart_data`; a falsy payload silently drops the recipe, and an
exception raised by `prepare_chart_data` aborts the remainder of the loop
(it propagates to the enclosing `except`).  `choice i` is the sampling
randomness of the `i`-th call. -/
def processRecipes (df : DataFrame) (recipes : List JVal)
    (choice : Nat → List Nat) (i : Nat) : Except PyErr (List JVal) :=
  match recipes with
  | [] => .ok []
  | r :: rest =>
      match prepare_chart_data df r (choice i) with
      | .error e => .error e
      | .ok chart_data =>
          match processRecipes df rest choice (i + 1) with
          | .error e => .error e
          | .ok tail =>
              .ok (if truthyPayload chart_data then
                     withChartData r (chart_data.getD []) :: tail
                   else tail)

/-- `get_ai_visualizations` (lines 87-147), from the model call onward.  The
model call is an oracle that may raise (`.error`); every exception inside the
`try` — API failure, the `ValueError` for a bracketless response, the
`json.loads` failure, or an exception out of `prepare_chart_data` — is caught
and downgraded to the structured error object. -/
def get_ai_visualizations (df : DataFrame) (modelCall : Except String String)
    (choice : Nat → List Nat) : PlannerResult :=
  match modelCall with
  | .error _ => .error .apiFailure
  | .ok ai_response_text =>
      match extractBracketed ai_response_text with
      | none => .error .noJsonArray
      | some clean_json_text =>
          match jsonParse clean_json_text with
          | none => .error .jsonDecodeError
          | some (.arr recipes_list) =>
              match processRecipes df recipes_list choice 0 with
              | .error e => .error (.recipeException e)
              | .ok final_charts_list => .ok final_charts_list
          | some _ =>
              -- Unreachable: the extracted text starts with '[' so a
              -- successful parse is an array.
              .error .jsonDecodeError

/-! ## `get_ai_insights` (the Insight Generator, lines 150-205) -/

/-- The fixed apology returned on any insights failure (line 205). -/
def insightsFallback : String :=
  "Failed to generate insights. The AI model may be temporarily down."

/-- `get_ai_insights` (lines 150-205), from the model call onward.  Any
exception — API failure, bracketless response, parse failure — yields the
single-element fallback list; on success the parsed array is returned
verbatim, with no per-item processing. -/
def get_ai_insights (modelCall : Except String String) : List JVal :=
  match modelCall with
  | .error _ => [.str insightsFallback]
  | .ok ai_response_text =>
      match extractBracketed ai_response_text with
      | none => [.str insightsFallback]
      | some clean_json_text =>
          match jsonParse clean_json_text with
          | none => [.str insightsFallback]
          | some (.arr insights_list) => insights_list
          | some _ =>
              -- Unreachable: the extracted text starts with '['.
              [.str insightsFallback]

/-! ## Global session state and the upload endpoint's update (lines 43-46,
233-235) -/

/-- The process-wide "memory": `last_uploaded_filepath` and
`csv_column_names` (`None` and `""` before the first upload). -/
structure GlobalState where
  last_uploaded_filepath : Option String
  csv_column_names : String
deriving DecidableEq

/-- The successful-upload update of the globals (lines 233-235):
`last_uploaded_filepath = os.path.abspath(save_path)` and
`csv_column_names = ", ".join(original_df.columns)`. -/
def uploadSetGlobals (abspath : String) (columnNames : List String) : GlobalState :=
  { last_uploaded_filepath := some abspath,
    csv_column_names := String.intercalate ", " columnNames }

/-! ## `chat_with_data` (the chat endpoint, lines 272-407) -/

/-- The JSON body of a chat request; absent fields are `none`. -/
structure ChatRequest where
  question : Option String
  metrics : Option String
  history : Option String
  filepath : Option String
  columns : Option String

/-- Python truthiness of `data.get(field)` for a string field. -/
def truthyOptStr : Option String → Bool
  | none => false
  | some s => s != ""

/-- Outcome of the `subprocess.run` call on the scratch script: the child
completed with captured stdout/stderr and a return code, the 15-second
wall-clock timeout fired (`TimeoutExpired`), or some other exception was
raised inside the `try` (model call failure, I/O error, interpreter launch
failure), carrying its text. -/
inductive ExecOutcome where
  | completed (stdout stderr : String) (returncode : Int)
  | timedOut
  | otherFailure (msg : String)

/-- Fallback for a clean run whose stripped stdout is empty (line 390). -/
def noOutputMsg : String :=
  "I\x27m sorry, I ran the code but it didn\x27t produce an answer. Please try rephrasing your question."

/-- 400 message for a missing question (line 284). -/
def askQuestionMsg : String :=
  "You must ask a question."

/-- 400 message for a missing filepath or column list (line 287). -/
def uploadFirstMsg : String :=
  "I\x27m sorry, I can\x27t answer questions. Please upload a CSV file first."

/-- Timeout apology (line 399). -/
def timeoutMsg : String :=
  "I\x27m sorry, the calculation took too long to run and was stopped. Please ask a simpler question."

/-- Script-error apology embedding the stripped stderr (line 403). -/
def scriptErrorMsg (stderr_stripped : String) : String :=
  "I\x27m sorry, the AI\x27s code failed to run. (Error: " ++ stderr_stripped ++ ")"

/-- Generic internal-error apology (line 407). -/
def internalErrorMsg (e : String) : String :=
  "I\x27m sorry, I encountered an error. The AI\x27s code may have failed. (Error: " ++ e ++ ")"

/-- Classification of the subprocess outcome (lines 376-407): `check=True`
turns a non-zero exit into `CalledProcessError` (caught at line 400, stderr
stripped into the apology, status 500); `TimeoutExpired` is caught at line
397 (fixed apology, 500); a clean exit strips stdout and substitutes the
fixed fallback when the result is empty (200); any other exception yields
the generic apology (500). -/
def classifyExecution : ExecOutcome → Nat × String
  | .timedOut => (500, timeoutMsg)
  | .completed stdout stderr returncode =>
      if returncode = 0 then
        let final_answer := pyStrip stdout
        if final_answer == "" then (200, noOutputMsg) else (200, final_answer)
      else (500, scriptErrorMsg (pyStrip stderr))
  | .otherFailure e => (500, internalErrorMsg e)

/-- The fixed data-loading statement the meta-prompt pins the generated
script to (twice, in the "WHAT" branch): `df = pd.read_csv("<path>")`. -/
def readCsvWhatLine (safe_filepath : String) : String :=
  "df = pd.read_csv(\"" ++ safe_filepath ++ "\")"

/-- Meta-prompt text from the start of the f-string to just before the
interpolated `{columns}`. -/
def promptSeg1 : String :=
  "\n        You are a data analyst AI. Your only job is to write a single, executable, standalone Python script to answer the user\x27s question.\n        \n        CSV Columns: "

/-- Meta-prompt text between `{columns}` and `{chat_history}`. -/
def promptSeg2 : String :=
  "\n        CHAT HISTORY (for context): "

/-- Meta-prompt text between `{chat_history}` and `{metrics_prompt}`. -/
def promptSeg3 : String :=
  "\n        "

/-- Meta-prompt text between `{metrics_prompt}` and the first `{question}`. -/
def promptSeg4 : String :=
  "\n\n        ---\n        First, analyze the user\x27s question: \""

/-- Meta-prompt text between the first `{question}` and the first
`df = pd.read_csv("{safe_filepath}")`. -/
def promptSeg5 : String :=
  "\"\n        \n        1.  Is this a \"WHAT\" question (asking for a specific calculation, like \"what is the total profit\", \"who is the top customer\")?\n        2.  Or is this a \"WHY\" or \"HOW\" question (asking for an explanation or correlation, like \"why did sales drop\", \"how did discounts affect profit\")?\n        \n        If it is a \"WHAT\" question:\n        Write a Python script that calculates the answer and prints a concise, human-readable sentence.\n        Your script MUST start with \x60import pandas as pd\x60 and \x60"

/-- Meta-prompt text between the first and second
`df = pd.read_csv("{safe_filepath}")`. -/
def promptSeg6 : String :=
  "\x60.\n        Your script MUST NOT include any other \x60import\x60 statements.\n        Your script MUST end with a single \x60print()\x60 statement.\n        Example for \"What\x27s the total profit?\":\n        import pandas as pd\n        "

/-- Meta-prompt text between the second
`df = pd.read_csv("{safe_filepath}")` and the third `{safe_filepath}` (the
"WHY" instruction's `pd.read_csv("` open). -/
def promptSeg7 : String :=
  "\n        print(f\"The total profit is $\x7bdf[\x27Profit\x27].sum():,.2f\x7d\")\n        \n        If it is a \"WHY\" or \"HOW\" question:\n        Write a Python script that finds correlations or data points that *might* explain the answer.\n        You can use \x60df.corr()\x60 for numerical columns.\n        You can use \x60df.groupby()\x60 to compare categories.\n        Your answer should be an *observation*, not a *conclusion*.\n        Your script MUST start with \x60import pandas as pd\x60 and \x60df = pd.read_csv(\""

/-- Meta-prompt text between the third and fourth `{safe_filepath}`. -/
def promptSeg8 : String :=
  "\", parse_dates=True)\x60.\n        Example for \"Why did profit drop in March?\":\n        import pandas as pd\n        df = pd.read_csv(\""

/-- Meta-prompt text between the fourth `{safe_filepath}` and the second
`{question}`. -/
def promptSeg9 : String :=
  "\", parse_dates=[\x27OrderDate\x27])\n        # Make sure OrderDate is a datetime object\n        df[\x27OrderDate\x27] = pd.to_datetime(df[\x27OrderDate\x27], errors=\x27coerce\x27)\n        df_march = df[df[\x27OrderDate\x27].dt.month == 3]\n        march_profit = df_march[\x27Profit\x27].sum()\n        feb_profit = df[df[\x27OrderDate\x27].dt.month == 2][\x27Profit\x27].sum()\n        # You can\x27t know the \"why\", but you can find correlations.\n        march_discounts = df_march[\x27Discount\x27].mean()\n        feb_discounts = df[df[\x27OrderDate\x27].dt.month == 2][\x27Discount\x27].mean()\n        print(f\"Profit dropped from \x7bfeb_profit\x7d in Feb to \x7bmarch_profit\x7d in March. One observation: the average discount also changed from \x7bfeb_discounts:.2f\x7d to \x7bmarch_discounts:.2f\x7d in that time.\")\n\n        Now, write *only* the Python script to answer: \""

/-- Meta-prompt text after the second `{question}` to the end. -/
def promptSeg10 : String :=
  "\"\n        "

/-- The meta-prompt `final_prompt` (lines 302-345), with the five f-string
interpolations as parameters, assembled from the literal segments above in
source order.  Literal braces are written `\x7b`/`\x7d`, apostrophes `\x27`
and backticks `\x60`; the 8-space indentation of the Python triple-quoted
literal is reproduced exactly. -/
def metaPromptText (columns chat_history metrics_prompt question
    safe_filepath : String) : String :=
  promptSeg1 ++ columns ++ promptSeg2 ++ chat_history ++ promptSeg3 ++
    metrics_prompt ++ promptSeg4 ++ question ++ promptSeg5 ++
    readCsvWhatLine safe_filepath ++ promptSeg6 ++
    readCsvWhatLine safe_filepath ++ promptSeg7 ++ safe_filepath ++
    promptSeg8 ++ safe_filepath ++ promptSeg9 ++ question ++ promptSeg10

/-- Observable effects of one chat request: the meta-prompt sent to the
model, the script text written to the shared scratch file, the HTTP
response `(status, answer)`, and the global state after the request. -/
structure ChatResult where
  prompt : Option String
  script : Option String
  response : Nat × String
  finalState : GlobalState

/-- `chat_with_data` (lines 272-407).  `gs` is the process-wide state at
request time (the handler declares no `global` and touches neither
variable); `model` is the oracle for a successful model call on a prompt;
`exec` is the oracle for everything that happens in the `try` after the
script is written.  The guards run before the `try`: a falsy `question`
gives 400, then falsy `filepath`/`columns` give the fixed upload-first 400.
Otherwise the meta-prompt is built from the request-body fields (the
filepath with backslashes doubled at line 300), the model's response is
written verbatim to the scratch file, and the subprocess outcome is
classified. -/
def chat_with_data (gs : GlobalState) (req : ChatRequest)
    (model : String → String) (exec : ExecOutcome) : ChatResult :=
  if !truthyOptStr req.question then
    { prompt := none, script := none,
      response := (400, askQuestionMsg), finalState := gs }
  else if !truthyOptStr req.filepath || !truthyOptStr req.columns then
    { prompt := none, script := none,
      response := (400, uploadFirstMsg), finalState := gs }
  else
    let metrics_encoded := (req.metrics).getD ""
    let chat_history := (req.history).getD "No prior conversation."
    let metrics_prompt :=
      if metrics_encoded != "" then
        "Here are some user-defined metrics to use if needed:\n" ++
          pyUnquote metrics_encoded ++ "\n"
      else ""
    let safe_filepath := escapeBackslashes ((req.filepath).getD "")
    let final_prompt := metaPromptText ((req.columns).getD "") chat_history
      metrics_prompt ((req.question).getD "") safe_filepath
    let python_code_to_run := model final_prompt
    { prompt := some final_prompt, script := some python_code_to_run,
      response := classifyExecution exec, finalState := gs }

example : jsonParse "[1]" = some (.arr [.num 1]) := rfl
example : jsonParse " [1, 2] " = some (.arr [.num 1, .num 2]) := rfl
example : jsonParse "[\x7b\"a\":1\x7d]" = some (.arr [.obj [("a", .num 1)]]) := rfl
example : jsonParse "[1.5]" = none := rfl
example : jsonParse "" = none := rfl
example : pyStrip " hi \n" = "hi" := rfl
example : pyRstrip " hi \n" = " hi" := rfl
example : escapeBackslashes "a\\b" = "a\\\\b" := rfl
example : strContains "Count of X" "Count of" = true := rfl

/-! ## Claim C1 — executor outcome classification

The claim says the answer for a clean exit with non-empty stdout is the
stdout with ONLY trailing whitespace removed.  The code runs
`result.stdout.strip()` (line 386), which removes leading whitespace as
well, and a whitespace-only stdout therefore falls into the no-output
fallback.  The rest of the claim (empty-stdout fallback, timeout apology,
stderr embedded on non-zero exit) matches the code. -/

/-- C1 counterexample: for stdout `" hello"` (clean exit) the code answers
`"hello"`, not the trailing-only-trimmed `" hello"` the claim prescribes. -/
theorem c1_counterexample :
    (classifyExecution (.completed " hello" "" 0)).2 ≠ pyRstrip " hello" := by
  decide

/-- C1 (amended): a clean exit answers with the stdout stripped of leading
AND trailing whitespace when that is non-empty, and the fixed fallback when
stdout strips to empty; a timeout yields the fixed apology; a non-zero exit
yields the apology embedding the stripped stderr; and past the request
guards the chat response is exactly this classification of the subprocess
outcome. -/
theorem c1_executor_classification :
    (∀ stdout stderr, pyStrip stdout ≠ "" →
        classifyExecution (.completed stdout stderr 0) = (200, pyStrip stdout))
    ∧ (∀ stdout stderr, pyStrip stdout = "" →
        classifyExecution (.completed stdout stderr 0) = (200, noOutputMsg))
    ∧ classifyExecution .timedOut = (500, timeoutMsg)
    ∧ (∀ stdout stderr (code : Int), code ≠ 0 →
        classifyExecution (.completed stdout stderr code)
          = (500, scriptErrorMsg (pyStrip stderr)))
    ∧ (∀ gs req model exec,
        truthyOptStr req.question = true → truthyOptStr req.filepath = true →
        truthyOptStr req.columns = true →
        (chat_with_data gs req model exec).response = classifyExecution exec) := by
  refine ⟨?_, ?_, rfl, ?_, ?_⟩
  · intro stdout stderr h
    simp [classifyExecution, beq_iff_eq, h]
  · intro stdout stderr h
    simp [classifyExecution, beq_iff_eq, h]
  · intro stdout stderr code h
    simp [classifyExecution, h]
  · intro gs req model exec hq hf hc
    simp [chat_with_data, hq, hf, hc]

/-- C1 witness: a clean run printing `ok` answers `ok` with status 200. -/
theorem c1_witness :
    classifyExecution (.completed "ok\n" "" 0) = (200, "ok") := by
  rw [c1_executor_classification.1 "ok\n" "" (by decide)]
  rfl

/-! ## Claim C2 — no markdown-fence stripping before execution

The claim (and the spec) say the model's script is stripped of any markdown
code fence before being written to the scratch file.  The code only ASKS the
model not to emit fences (the system message at line 354) and writes
`chat_completion.choices[0].message.content` verbatim (lines 361-368): no
stripping exists, so fence markers present in the response reach the file. -/

/-- C2 counterexample: a fenced model response is written to the scratch
file verbatim, fence markers included. -/
theorem c2_counterexample :
    (chat_with_data ⟨none, ""⟩ ⟨some "q", none, none, some "/tmp/d.csv", some "a, b"⟩
        (fun _ => "\x60\x60\x60python\nprint(1)\n\x60\x60\x60") .timedOut).script
      = some "\x60\x60\x60python\nprint(1)\n\x60\x60\x60"
    ∧ strContains "\x60\x60\x60python\nprint(1)\n\x60\x60\x60" "\x60\x60\x60" = true :=
  ⟨rfl, rfl⟩

/-- C2 (amended): the script written to the scratch file is the model's
response verbatim — no transformation, and in particular no fence stripping,
is applied between the model call and the file write. -/
theorem c2_script_written_verbatim :
    ∀ (gs : GlobalState) (req : ChatRequest) (response : String)
      (exec : ExecOutcome),
      truthyOptStr req.question = true → truthyOptStr req.filepath = true →
      truthyOptStr req.columns = true →
      (chat_with_data gs req (fun _ => response) exec).script = some response := by
  intro gs req response exec hq hf hc
  simp [chat_with_data, hq, hf, hc]

/-- C2 witness. -/
theorem c2_witness :
    (chat_with_data ⟨none, ""⟩ ⟨some "why", none, none, some "/tmp/e.csv", some "c"⟩
        (fun _ => "\x60\x60\x60print(2)\x60\x60\x60") .timedOut).script
      = some "\x60\x60\x60print(2)\x60\x60\x60" :=
  c2_script_written_verbatim _ _ _ _ (by decide) (by decide) (by decide)

/-! ## Claim C4 — the chat handler and the global session pointer

The claim says the chat handler READS the globals `last_uploaded_filepath` /
`csv_column_names` to re-derive the dataset "without the client resending
it".  The handler actually takes `filepath` and `columns` from the request
body (lines 280-281) — the client resends them on every request — and never
touches either global (no `global` declaration, no read, no write).  The
never-mutated half of the claim does hold. -/

/-- C4 counterexample: with the session pointer fully populated but the
request body omitting `filepath`, the handler answers the 400 upload-first
message instead of re-deriving the dataset from the pointer — it does not
read the session pointer. -/
theorem c4_counterexample :
    (chat_with_data ⟨some "/abs/uploads/b.csv", "a, b"⟩
        ⟨some "what is the total?", none, none, none, none⟩
        (fun _ => "") .timedOut).response = (400, uploadFirstMsg) :=
  rfl

/-- C4 (amended): the chat handler never mutates the globals (the state
after any chat request is exactly the state before, hence still the values
set by the most recent upload), and it never reads them either — every
observable of the request (response, prompt, script) is invariant under an
arbitrary change of the global state, the dataset being re-derived from the
client-resent `filepath`/`columns` fields instead. -/
theorem c4_session_pointer_never_read_never_mutated :
    (∀ gs req model exec,
        (chat_with_data gs req model exec).finalState = gs)
    ∧ (∀ gs gs' req model exec,
        (chat_with_data gs req model exec).response
            = (chat_with_data gs' req model exec).response
        ∧ (chat_with_data gs req model exec).prompt
            = (chat_with_data gs' req model exec).prompt
        ∧ (chat_with_data gs req model exec).script
            = (chat_with_data gs' req model exec).script)
    ∧ (∀ abspath columnNames req model exec,
        (chat_with_data (uploadSetGlobals abspath columnNames) req model exec).finalState
          = uploadSetGlobals abspath columnNames) := by
  have hframe : ∀ gs req model exec,
      (chat_with_data gs req model exec).finalState = gs := by
    intro gs req model exec
    cases hq : truthyOptStr req.question <;>
      cases hf : truthyOptStr req.filepath <;>
        cases hc : truthyOptStr req.columns <;>
          simp [chat_with_data, hq, hf, hc]
  refine ⟨hframe, ?_, fun abspath columnNames req model exec => hframe _ _ _ _⟩
  intro gs gs' req model exec
  refine ⟨?_, ?_, ?_⟩ <;>
    cases hq : truthyOptStr req.question <;>
      cases hf : truthyOptStr req.filepath <;>
        cases hc : truthyOptStr req.columns <;>
          simp [chat_with_data, hq, hf, hc]

/-! ## Claim C5 — missing-dataset guard

The claim says a request whose body omits `filepath` (or `columns`) gets the
fixed upload-first 400 REGARDLESS of the `question` field, including an
empty or missing question.  The question guard (line 283) runs first, so a
falsy question yields `"You must ask a question."` instead. -/

/-- C5 counterexample: with both `question` and `filepath` missing the
response is the question-guard message, not the upload-first message the
claim prescribes. -/
theorem c5_counterexample :
    (chat_with_data ⟨none, ""⟩ ⟨none, none, none, none, none⟩
        (fun _ => "") .timedOut).response = (400, askQuestionMsg)
    ∧ (chat_with_data ⟨none, ""⟩ ⟨none, none, none, none, none⟩
        (fun _ => "") .timedOut).response ≠ (400, uploadFirstMsg) :=
  ⟨rfl, by decide⟩

/-- C5 (amended): for any request with a non-empty question and a missing or
empty `filepath` or `columns`, the response is 400 with the fixed
upload-first message; when the question itself is missing or empty, the
question guard fires first with its own 400 message. -/
theorem c5_upload_first_guard :
    (∀ gs req model exec, truthyOptStr req.question = true →
        truthyOptStr req.filepath = false ∨ truthyOptStr req.columns = false →
        (chat_with_data gs req model exec).response = (400, uploadFirstMsg))
    ∧ (∀ gs req model exec, truthyOptStr req.question = false →
        (chat_with_data gs req model exec).response = (400, askQuestionMsg)) := by
  constructor
  · intro gs req model exec hq h
    rcases h with h | h <;> simp [chat_with_data, hq, h]
  · intro gs req model exec hq
    simp [chat_with_data, hq]

/-- C5 witness: non-empty question, missing filepath. -/
theorem c5_witness :
    (chat_with_data ⟨none, ""⟩ ⟨some "total?", none, none, none, some "a"⟩
        (fun _ => "") .timedOut).response = (400, uploadFirstMsg) :=
  c5_upload_first_guard.1 _ _ _ _ (by decide) (Or.inl (by decide))

/-! ## Claim C9 — insight generator failure and success behavior

On any failure `get_ai_insights` indeed returns exactly the single-element
fixed apology list.  But on success the parsed array is returned verbatim
(line 201): NO per-item validation happens, not even the "is it a string"
check the claim describes — non-string elements pass straight through. -/

/-- C9 counterexample: the response `[1, 2]` parses to two non-string
insights and is returned as-is, so no is-it-a-string validation is applied
to the items. -/
theorem c9_counterexample :
    get_ai_insights (.ok "[1, 2]") = [.num 1, .num 2]
    ∧ ¬ (∀ v ∈ get_ai_insights (.ok "[1, 2]"), ∃ s, v = JVal.str s) := by
  refine ⟨rfl, fun h => ?_⟩
  obtain ⟨s, hs⟩ := h (.num 1)
    (by rw [show get_ai_insights (.ok "[1, 2]") = [.num 1, .num 2] from rfl]; simp)
  exact JVal.noConfusion hs

/-- C9 (amended): every failure (model-call error, bracketless response,
JSON parse failure) returns exactly the single-element fixed apology list
and no exception escapes; on success the parsed array is returned verbatim,
with no per-item validation of any kind. -/
theorem c9_insights_fallback_and_no_validation :
    (∀ e, get_ai_insights (.error e) = [.str insightsFallback])
    ∧ (∀ s, extractBracketed s = none →
        get_ai_insights (.ok s) = [.str insightsFallback])
    ∧ (∀ s t, extractBracketed s = some t → jsonParse t = none →
        get_ai_insights (.ok s) = [.str insightsFallback])
    ∧ (∀ s t xs, extractBracketed s = some t → jsonParse t = some (.arr xs) →
        get_ai_insights (.ok s) = xs) := by
  refine ⟨fun e => rfl, ?_, ?_, ?_⟩
  · intro s h
    simp [get_ai_insights, h]
  · intro s t h1 h2
    simp [get_ai_insights, h1, h2]
  · intro s t xs h1 h2
    simp [get_ai_insights, h1, h2]

/-- C9 witness: a bracketless response degrades to the fallback list. -/
theorem c9_witness :
    get_ai_insights (.ok "no array here") = [.str insightsFallback] :=
  c9_insights_fallback_and_no_validation.2.1 "no array here" rfl

/-! ## Claim C3 — bracket extraction in the Analysis Planner -/

/-- C3: the planner slices the raw response from the first `[` to the last
`]` inclusive and parses that substring as JSON; the given concrete example
parses to the one-element array; and a missing bracket or a parse failure
yields the structured error object as a RETURNED value of the planner, not
an escaping exception. -/
theorem c3_bracket_extraction :
    (∀ (s : String) (i j : Nat), pyFind '[' s = some i → pyRfind ']' s = some j →
        extractBracketed s = some ⟨(s.data.drop i).take (j + 1 - i)⟩)
    ∧ (∀ s : String, pyFind '[' s = none ∨ pyRfind ']' s = none →
        extractBracketed s = none)
    ∧ extractBracketed "Sure! [\x7b\"a\":1\x7d] Thanks" = some "[\x7b\"a\":1\x7d]"
    ∧ jsonParse "[\x7b\"a\":1\x7d]" = some (.arr [.obj [("a", .num 1)]])
    ∧ (∀ (df : DataFrame) (modelText : String) (choice : Nat → List Nat),
        extractBracketed modelText = none →
        get_ai_visualizations df (.ok modelText) choice = .error .noJsonArray)
    ∧ (∀ (df : DataFrame) (modelText t : String) (choice : Nat → List Nat),
        extractBracketed modelText = some t → jsonParse t = none →
        get_ai_visualizations df (.ok modelText) choice = .error .jsonDecodeError) := by
  refine ⟨?_, ?_, rfl, rfl, ?_, ?_⟩
  · intro s i j h1 h2
    simp [extractBracketed, h1, h2]
  · intro s h
    rcases h with h | h
    · simp [extractBracketed, h]
    · cases hf : pyFind '[' s <;> simp [extractBracketed, h, hf]
  · intro df modelText choice h
    simp [get_ai_visualizations, h]
  · intro df modelText t choice h1 h2
    simp [get_ai_visualizations, h1, h2]

/-- C3 witness: a bracketless response makes the planner return the
structured error value. -/
theorem c3_witness :
    get_ai_visualizations ⟨[], [], []⟩ (.ok "nothing structured")
        (fun _ => []) = .error .noJsonArray :=
  c3_bracket_extraction.2.2.2.2.1 ⟨[], [], []⟩ "nothing structured"
    (fun _ => []) rfl

/-! ## Claim C6 — totality of the Chart Data Extractor

The claim says `prepare_chart_data` never raises to its caller for ANY
recipe.  The column guard at line 57 runs OUTSIDE the `try` block and
raises on raw parsed JSON values in two ways: an unhashable binding (a JSON
array or object, in either position) raises `TypeError` inside
`in df.columns` (pandas `Index.__contains__` hashes the key before its own
try), and a truthy number or boolean `y_column` that is not a column label
raises `TypeError` at `"Count of" not in y_col`.  Either propagates out of
`prepare_chart_data`, aborts the planner's recipe loop, and turns the WHOLE
batch into the error object.  (A non-dict recipe similarly raises
`AttributeError` at `recipe.get`, outside the `try`.) -/

set_option maxRecDepth 8000 in
/-- C6 counterexample: a recipe whose `y_column` is the JSON number `5`
raises `TypeError` at the `"Count of" not in y_col` test; a recipe whose
`x_column` is the JSON array `["a"]` raises `TypeError` already at the
`x_col not in df.columns` membership test; and a batch containing such a
recipe followed by a perfectly valid one is aborted wholesale into the
planner's error object. -/
theorem c6_counterexample :
    prepare_chart_data ⟨["a"], ["a"], [[.int 1]]⟩
        (.obj [("chart_type", .str "Bar Chart"), ("x_column", .str "a"),
               ("y_column", .num 5)]) []
      = .error .typeError
    ∧ prepare_chart_data ⟨["a"], ["a"], [[.int 1]]⟩
        (.obj [("chart_type", .str "Bar Chart"), ("x_column", .arr [.str "a"]),
               ("y_column", .str "a")]) []
      = .error .typeError
    ∧ get_ai_visualizations ⟨["a"], ["a"], [[.int 1]]⟩
        (.ok "[\x7b\"chart_type\": \"Bar Chart\", \"x_column\": \"a\", \"y_column\": 5\x7d, \x7b\"chart_type\": \"Histogram\", \"x_column\": \"a\", \"y_column\": \"Count of a\"\x7d]")
        (fun _ => [])
      = .error (.recipeException .typeError) :=
  ⟨rfl, rfl, rfl⟩

/-- Does the recipe's `x_column` avoid the raising cases of the guard?
Nonempty arrays/objects are unhashable AND truthy, so they reach and break
the membership test; empty ones are falsy and exit at the truthiness
guard. -/
def xSafeField (fields : List (String × JVal)) : Bool :=
  match objGet fields "x_column" with
  | some (.arr l) => l.isEmpty
  | some (.obj l) => l.isEmpty
  | _ => true

/-- Does the recipe's `y_column` avoid the raising cases of the guard?
Truthy numbers and booleans raise at the `"Count of" not in y_col` test,
truthy arrays/objects already at the membership test; the falsy values of
each kind exit at the earlier truthiness guard. -/
def ySafeField (fields : List (String × JVal)) : Bool :=
  match objGet fields "y_column" with
  | some (.num n) => n == 0
  | some (.bool b) => !b
  | some (.arr l) => l.isEmpty
  | some (.obj l) => l.isEmpty
  | _ => true

/-- With string-valued bindings every path through `prepare_chart_data` is
exception-free: membership and substring tests are defined on strings and
the `try` block absorbs everything else. -/
theorem prepare_ok_of_str_str (df : DataFrame) (fields : List (String × JVal))
    (choice : List Nat) (x y : String)
    (hx : objGet fields "x_column" = some (.str x))
    (hy : objGet fields "y_column" = some (.str y)) :
    ∃ r, prepare_chart_data df (.obj fields) choice = .ok r := by
  unfold prepare_chart_data
  dsimp only
  simp only [hx, hy, Option.getD_some, dfContains, pyInStr]
  split
  · exact ⟨none, rfl⟩
  · split
    · exact ⟨none, rfl⟩
    · split
      · exact ⟨_, rfl⟩
      · split
        · exact ⟨none, rfl⟩
        · exact ⟨_, rfl⟩

/-- A hashable `x_column` that is not a column label makes the guard return
`None` before any `y_column` test is evaluated (Python short-circuit). -/
theorem prepare_ok_of_x_not_column (df : DataFrame)
    (fields : List (String × JVal)) (choice : List Nat)
    (hxv : dfContains df ((objGet fields "x_column").getD .null) = .ok false) :
    ∃ r, prepare_chart_data df (.obj fields) choice = .ok r := by
  unfold prepare_chart_data
  dsimp only
  split
  · exact ⟨none, rfl⟩
  · exact ⟨none, by simp [hxv]⟩

/-- C6 (amended): for every recipe that is a JSON object whose `x_column` is
not a truthy array/object and whose `y_column` is not a truthy number,
boolean, array or object, `prepare_chart_data` is total — missing or falsy
bindings, unknown columns, unknown chart types and internal processing
errors all return no payload rather than raising — and a recipe yielding no
payload leaves the processing of the remaining batch unaffected.  (Outside
that range the extractor raises, per the counterexample.) -/
theorem c6_extractor_totality :
    (∀ (df : DataFrame) (fields : List (String × JVal)) (choice : List Nat),
        xSafeField fields = true → ySafeField fields = true →
        ∃ r, prepare_chart_data df (.obj fields) choice = .ok r)
    ∧ (∀ (df : DataFrame) (r : JVal) (rest : List JVal)
          (choice : Nat → List Nat) (i : Nat),
        prepare_chart_data df r (choice i) = .ok none →
        processRecipes df (r :: rest) choice i
          = processRecipes df rest choice (i + 1)) := by
  constructor
  · intro df fields choice hxsafe hysafe
    rcases hx : objGet fields "x_column" with _ | xv
    · exact prepare_ok_of_x_not_column df fields choice (by simp [hx, dfContains])
    · rcases xv with _ | b | n | s | l | l
      · exact prepare_ok_of_x_not_column df fields choice (by simp [hx, dfContains])
      · exact prepare_ok_of_x_not_column df fields choice (by simp [hx, dfContains])
      · exact prepare_ok_of_x_not_column df fields choice (by simp [hx, dfContains])
      · -- x is a string: analyze y
        rcases hy : objGet fields "y_column" with _ | yv
        · exact ⟨none, by unfold prepare_chart_data; simp [hy, truthy]⟩
        · rcases yv with _ | b | n | t | l | l
          · exact ⟨none, by unfold prepare_chart_data; simp [hy, truthy]⟩
          · have hb : b = false := by
              unfold ySafeField at hysafe
              rw [hy] at hysafe
              simpa using hysafe
            exact ⟨none, by unfold prepare_chart_data; simp [hy, hb, truthy]⟩
          · have hn : n = 0 := by
              unfold ySafeField at hysafe
              rw [hy] at hysafe
              simpa using hysafe
            exact ⟨none, by unfold prepare_chart_data; simp [hy, hn, truthy]⟩
          · exact prepare_ok_of_str_str df fields choice s t hx hy
          · have hle : l.isEmpty = true := by
              unfold ySafeField at hysafe
              rw [hy] at hysafe
              simpa using hysafe
            exact ⟨none, by unfold prepare_chart_data; simp [hy, truthy, hle]⟩
          · have hle : l.isEmpty = true := by
              unfold ySafeField at hysafe
              rw [hy] at hysafe
              simpa using hysafe
            exact ⟨none, by unfold prepare_chart_data; simp [hy, truthy, hle]⟩
      · have hle : l.isEmpty = true := by
          unfold xSafeField at hxsafe
          rw [hx] at hxsafe
          simpa using hxsafe
        exact ⟨none, by unfold prepare_chart_data; simp [hx, truthy, hle]⟩
      · have hle : l.isEmpty = true := by
          unfold xSafeField at hxsafe
          rw [hx] at hxsafe
          simpa using hxsafe
        exact ⟨none, by unfold prepare_chart_data; simp [hx, truthy, hle]⟩
  · intro df r rest choice i h
    conv_lhs => rw [processRecipes]
    rw [h]
    cases hrec : processRecipes df rest choice (i + 1) <;>
      simp [truthyPayload, hrec]

/-- C6 witness: a recipe naming an absent `x_column` yields `.ok` (in fact
no payload) without raising, and such a no-payload recipe drops out of the
batch leaving the rest to be processed. -/
theorem c6_witness :
    (∃ r, prepare_chart_data ⟨["a"], ["a"], [[.int 1]]⟩
        (.obj [("chart_type", .str "Bar Chart"), ("x_column", .str "zz"),
               ("y_column", .str "a")]) []
      = .ok r)
    ∧ processRecipes ⟨["a"], ["a"], [[.int 1]]⟩
        [.obj [("chart_type", .str "Bar Chart"), ("x_column", .str "zz"),
               ("y_column", .str "a")],
         .obj [("chart_type", .str "Histogram"), ("x_column", .str "a"),
               ("y_column", .str "Count of a")]]
        (fun _ => []) 0
      = processRecipes ⟨["a"], ["a"], [[.int 1]]⟩
          [.obj [("chart_type", .str "Histogram"), ("x_column", .str "a"),
                 ("y_column", .str "Count of a")]]
          (fun _ => []) 1 :=
  ⟨c6_extractor_totality.1 ⟨["a"], ["a"], [[.int 1]]⟩ _ [] rfl rfl,
   c6_extractor_totality.2 ⟨["a"], ["a"], [[.int 1]]⟩ _ _ (fun _ => []) 0 rfl⟩

/-! ## Claim C7 — payload shape for valid aggregating recipes -/

/-- The group-key accumulator never becomes empty once nonempty. -/
theorem foldl_dedup_ne_nil (l acc : List Value) (h : acc ≠ []) :
    l.foldl (fun acc v => if v ∈ acc then acc else acc ++ [v]) acc ≠ [] := by
  induction l generalizing acc with
  | nil => simpa using h
  | cons a l ih =>
      simp only [List.foldl_cons]
      apply ih
      split
      · exact h
      · simp

/-- A nonempty column has at least one group key. -/
theorem firstOccs_ne_nil {l : List Value} (h : l ≠ []) : firstOccs l ≠ [] := by
  cases l with
  | nil => exact absurd rfl h
  | cons a l =>
      unfold firstOccs
      simp only [List.foldl_cons]
      apply foldl_dedup_ne_nil
      simp

/-- C7 counterexample: an entirely valid aggregating recipe (existing
`x_column`, existing numeric `y_column`, Bar chart) over a dataset with zero
rows produces an EMPTY payload — the claim's "non-empty" fails.  And a valid
recipe binding the SAME existing numeric column to both axes yields NO
payload at all: `groupby('b')['b'].sum().reset_index()` raises the
duplicate-label `ValueError`, caught to `None`.  (The planner subsequently
drops both falsy results, but `extract` itself returned them.) -/
theorem c7_counterexample :
    prepare_chart_data ⟨["a", "b"], ["b"], []⟩
        (.obj [("chart_type", .str "Bar Chart"), ("x_column", .str "a"),
               ("y_column", .str "b")]) []
      = .ok (some [])
    ∧ prepare_chart_data ⟨["b"], ["b"], [[.int 1]]⟩
        (.obj [("chart_type", .str "Bar Chart"), ("x_column", .str "b"),
               ("y_column", .str "b")]) []
      = .ok none :=
  ⟨rfl, rfl⟩

/-- C7 (amended): for every valid aggregating recipe — Bar/Pie/Line chart
whose `x_column` is a nonempty present column and whose `y_column` is a
nonempty string DISTINCT from `x_column` that either carries the
`"Count of"` marker (with `x_column` itself not labelled `Count`, which
would collide in `reset_index(name='Count')`) or names a present numeric
column — over a dataset with AT LEAST ONE ROW, the extractor returns a
non-empty payload whose records each have key list exactly
`[x_column, y_column]`: the resolved y-field is the literal `y_column` name
in the sum case and the marker text itself (which IS the `y_column` string)
in the count case. -/
theorem c7_agg_payload_keys
    (df : DataFrame) (fields : List (String × JVal)) (ct x y : String)
    (choice : List Nat)
    (hct : objGet fields "chart_type" = some (.str ct))
    (hx : objGet fields "x_column" = some (.str x))
    (hy : objGet fields "y_column" = some (.str y))
    (hctm : ct = "Bar Chart" ∨ ct = "Pie Chart" ∨ ct = "Line Chart")
    (hxne : x ≠ "") (hyne : y ≠ "") (hxy : y ≠ x)
    (hxc : df.cols.contains x = true)
    (hyv : (strContains y "Count of" = true ∧ x ≠ "Count") ∨
           (strContains y "Count of" = false ∧ df.cols.contains y = true ∧
            df.numericCols.contains y = true))
    (hrows : df.rows ≠ []) :
    ∃ p, prepare_chart_data df (.obj fields) choice = .ok (some p) ∧ p ≠ []
      ∧ ∀ rec ∈ p, rec.map Prod.fst = [x, y] := by
  have hkeys : firstOccs (colValues df x) ≠ [] := by
    apply firstOccs_ne_nil
    simp [colValues, hrows]
  have hyx : (y == x) = false := by simpa using hxy
  have hcount :
      ∃ p, prepareChartTry df (.str ct) x y choice = some p
        ∧ p ≠ [] ∧ ∀ rec ∈ p, rec.map Prod.fst = [x, y] := by
    have hagg : (isChartType (.str ct) "Bar Chart" ||
        isChartType (.str ct) "Pie Chart" ||
        isChartType (.str ct) "Line Chart") = true := by
      rcases hctm with h | h | h <;> simp [isChartType, h]
    rcases hyv with ⟨hm, hxcnt⟩ | ⟨hm, _, hnum⟩
    · have hxcnt2 : (x == "Count") = false := by simpa using hxcnt
      refine ⟨(firstOccs (colValues df x)).map
          (fun k => [(x, k), (y, Value.int (groupSize df x k))]), ?_, ?_, ?_⟩
      · simp [prepareChartTry, hagg, hm, hxcnt2, hyx]
      · simpa using hkeys
      · intro rec hrec
        obtain ⟨k, _, hk⟩ := List.mem_map.mp hrec
        rw [← hk]
        rfl
    · have hnum2 : y ∈ df.numericCols := by simpa using hnum
      refine ⟨(firstOccs (colValues df x)).map
          (fun k => [(x, k), (y, Value.int (groupSum df x y k))]), ?_, ?_, ?_⟩
      · simp [prepareChartTry, hagg, hm, hnum2, hyx]
      · simpa using hkeys
      · intro rec hrec
        obtain ⟨k, _, hk⟩ := List.mem_map.mp hrec
        rw [← hk]
        rfl
  obtain ⟨p, hp, hpne, hpk⟩ := hcount
  refine ⟨p, ?_, hpne, hpk⟩
  have hxt : (x != "") = true := by simpa using hxne
  have hyt : (y != "") = true := by simpa using hyne
  have hxm : x ∈ df.cols := by simpa using hxc
  unfold prepare_chart_data
  by_cases hyc : df.cols.contains y = true
  · have hym : y ∈ df.cols := by simpa using hyc
    simp [hct, hx, hy, truthy, hxt, hyt, dfContains, strOf, hxc, hxm, hym, hp]
  · have hyc2 : df.cols.contains y = false := by simpa using hyc
    have hym2 : y ∉ df.cols := by simpa using hyc2
    rcases hyv with ⟨hm, _⟩ | ⟨_, hyc3, _⟩
    · simp [hct, hx, hy, truthy, hxt, hyt, dfContains, strOf, hxc, hxm, hym2,
        pyInStr, hm, hp]
    · rw [hyc3] at hyc2
      cases hyc2

/-- C7 witness: a two-row dataset, Bar chart summing numeric `b` by `a`. -/
theorem c7_witness :
    ∃ p, prepare_chart_data ⟨["a", "b"], ["b"],
          [[.str "g", .int 3], [.str "g", .int 4]]⟩
        (.obj [("chart_type", .str "Bar Chart"), ("x_column", .str "a"),
               ("y_column", .str "b")]) []
      = .ok (some p) ∧ p ≠ [] ∧ ∀ rec ∈ p, rec.map Prod.fst = ["a", "b"] :=
  c7_agg_payload_keys _ _ "Bar Chart" "a" "b" [] rfl rfl rfl (Or.inl rfl)
    (by decide) (by decide) (by decide) rfl (Or.inr ⟨rfl, rfl, rfl⟩)
    (by decide)

/-! ## Claim C8 — scatter sampling -/

/-- The sampled row list has one row per chosen index when every index is in
range. -/
theorem sampleRows_length (df : DataFrame) :
    ∀ choice : List Nat, (∀ i ∈ choice, i < df.rows.length) →
      (sampleRows df choice).length = choice.length := by
  intro choice
  induction choice with
  | nil => intro _; rfl
  | cons a l ih =>
      intro h
      have ha : a < df.rows.length := h a (by simp)
      have hsome : df.rows[a]? = some df.rows[a] := List.getElem?_eq_getElem ha
      have hstep : sampleRows df (a :: l) = df.rows[a] :: sampleRows df l := by
        simp [sampleRows, List.filterMap_cons, hsome]
      rw [hstep, List.length_cons, List.length_cons,
        ih (fun i hi => h i (by simp [hi]))]

/-- A duplicate-free list of `n` indices below `n` contains every index
below `n` (the without-replacement sampling contract exhausts a small
dataset). -/
theorem choice_complete (n : Nat) (choice : List Nat) (hnodup : choice.Nodup)
    (hbound : ∀ i ∈ choice, i < n) (hlen : choice.length = n) :
    ∀ k, k < n → k ∈ choice := by
  intro k hk
  have hsub : choice.toFinset ⊆ Finset.range n := by
    intro i hi
    exact Finset.mem_range.mpr (hbound i (List.mem_toFinset.mp hi))
  have hcard : (Finset.range n).card ≤ choice.toFinset.card := by
    rw [Finset.card_range, List.toFinset_card_of_nodup hnodup, hlen]
  have hEq : choice.toFinset = Finset.range n :=
    Finset.eq_of_subset_of_card_le hsub hcard
  have hkf : k ∈ choice.toFinset := by
    rw [hEq]
    exact Finset.mem_range.mpr hk
  exact List.mem_toFinset.mp hkf

/-- C8 counterexample: a Scatter recipe binding the SAME present column to
both axes is serialized with duplicate column labels, on which pandas'
`to_json(orient='records')` raises (caught to `None`) — the code returns no
payload instead of the claimed `min(500, row_count)`-record sample, here 2
records. -/
theorem c8_counterexample :
    prepare_chart_data ⟨["u"], [], [[.int 1], [.int 2]]⟩
        (.obj [("chart_type", .str "Scatter Plot"), ("x_column", .str "u"),
               ("y_column", .str "u")]) [0, 1]
      = .ok none :=
  rfl

/-- C8 (amended): for every Scatter recipe whose two (nonempty-named)
columns are present and DISTINCT, and for every sampling choice satisfying
the engine's without-replacement contract (distinct in-range indices,
`min(500, row_count)` many — the uniformity of the engine's distribution is
the collaborator contract of spec section 6 and is not a statement about
this code), the payload has exactly `min(500, row_count)` records, each the
projection of a dataset row onto `{x_column, y_column}`; and when the
dataset has at most 500 rows every row's projection appears in the payload.
(With `x_column = y_column` the extractor instead returns no payload, per
the counterexample.) -/
theorem c8_scatter_sample
    (df : DataFrame) (fields : List (String × JVal)) (x y : String)
    (choice : List Nat)
    (hct : objGet fields "chart_type" = some (.str "Scatter Plot"))
    (hx : objGet fields "x_column" = some (.str x))
    (hy : objGet fields "y_column" = some (.str y))
    (hxne : x ≠ "") (hyne : y ≠ "") (hxy : y ≠ x)
    (hxc : df.cols.contains x = true) (hyc : df.cols.contains y = true)
    (hnodup : choice.Nodup)
    (hbound : ∀ i ∈ choice, i < df.rows.length)
    (hlen : choice.length = min 500 df.rows.length) :
    ∃ p, prepare_chart_data df (.obj fields) choice = .ok (some p)
      ∧ p.length = min 500 df.rows.length
      ∧ (∀ rec ∈ p, rec.map Prod.fst = [x, y])
      ∧ (df.rows.length ≤ 500 →
          ∀ r ∈ df.rows, [(x, cellAt df r x), (y, cellAt df r y)] ∈ p) := by
  have hxt : (x != "") = true := by simpa using hxne
  have hyt : (y != "") = true := by simpa using hyne
  have hyx : (y == x) = false := by simpa using hxy
  have hxm : x ∈ df.cols := by simpa using hxc
  have hym : y ∈ df.cols := by simpa using hyc
  refine ⟨(sampleRows df choice).map
      (fun r => [(x, cellAt df r x), (y, cellAt df r y)]), ?_, ?_, ?_, ?_⟩
  · unfold prepare_chart_data
    simp [hct, hx, hy, truthy, hxt, hyt, dfContains, strOf, hxc, hxm, hym,
      prepareChartTry, isChartType, hyx]
  · rw [List.length_map, sampleRows_length df choice hbound, hlen]
  · intro rec hrec
    obtain ⟨r, _, hr⟩ := List.mem_map.mp hrec
    rw [← hr]
    rfl
  · intro h500 r hr
    obtain ⟨k, hk, hkeq⟩ := List.mem_iff_getElem.mp hr
    have hmin : min 500 df.rows.length = df.rows.length := Nat.min_eq_right h500
    have hkch : k ∈ choice :=
      choice_complete df.rows.length choice hnodup hbound
        (by rw [hlen, hmin]) k hk
    have hrs : r ∈ sampleRows df choice :=
      List.mem_filterMap.mpr
        ⟨k, hkch, by rw [List.getElem?_eq_getElem hk, hkeq]⟩
    exact List.mem_map.mpr ⟨r, hrs, rfl⟩

/-- C8 witness: a two-row dataset is sampled in full (`min 500 2 = 2`). -/
theorem c8_witness :
    ∃ p, prepare_chart_data ⟨["u", "v"], [], [[.int 1, .int 2], [.int 3, .int 4]]⟩
        (.obj [("chart_type", .str "Scatter Plot"), ("x_column", .str "u"),
               ("y_column", .str "v")]) [1, 0]
      = .ok (some p) ∧ p.length = 2 := by
  obtain ⟨p, h1, h2, _, _⟩ := c8_scatter_sample
    ⟨["u", "v"], [], [[.int 1, .int 2], [.int 3, .int 4]]⟩
    [("chart_type", .str "Scatter Plot"), ("x_column", .str "u"),
     ("y_column", .str "v")]
    "u" "v" [1, 0] rfl rfl rfl (by decide) (by decide) (by decide) rfl rfl
    (by decide) (by decide) (by decide)
  refine ⟨p, h1, ?_⟩
  rw [h2]
  decide

/-! ## Claim C10 — the meta-prompt reads the script's target path and the
column list straight from the request body

`chat_with_data` builds `safe_filepath` from the request's `filepath` with
each backslash doubled (line 300) and interpolates it, the request's
`columns` string verbatim, and the rest of the body fields into the
meta-prompt; nothing compares the path against `last_uploaded_filepath` or
the upload directory (the prompt claim quantifies over ALL filepath strings
and is invariant under the global state). -/

/-- C10: (1) the source's `replace('\\', '\\\\')` doubles each backslash
exactly as the specification words it; (2) the meta-prompt decomposes around
the verbatim client columns string and the pinned
`df = pd.read_csv("<escaped client path>")` loading line; (3) the prompt is
invariant under arbitrary changes of the global session pointer (no check
against the last-uploaded file); (4) past the guards, the prompt sent for a
request is exactly the meta-prompt built from that request's own fields. -/
theorem c10_prompt_embeds_request_fields :
    (∀ s : String, (escapeBackslashes s).data = specDoubledBackslashes s.data)
    ∧ (∀ columns chat_history metrics_prompt question fp : String,
        ∃ pre mid post : String,
          metaPromptText columns chat_history metrics_prompt question
              (escapeBackslashes fp)
            = pre ++ columns ++ mid
              ++ readCsvWhatLine (escapeBackslashes fp) ++ post)
    ∧ (∀ gs gs' req model exec,
        (chat_with_data gs req model exec).prompt
          = (chat_with_data gs' req model exec).prompt)
    ∧ (∀ gs req model exec,
        truthyOptStr req.question = true → truthyOptStr req.filepath = true →
        truthyOptStr req.columns = true →
        (chat_with_data gs req model exec).prompt
          = some (metaPromptText ((req.columns).getD "")
              ((req.history).getD "No prior conversation.")
              (if ((req.metrics).getD "" != "") = true then
                 "Here are some user-defined metrics to use if needed:\n" ++
                   pyUnquote ((req.metrics).getD "") ++ "\n"
               else "")
              ((req.question).getD "")
              (escapeBackslashes ((req.filepath).getD "")))) := by
  have hgo : ∀ l : List Char, escapeBackslashes.go l = specDoubledBackslashes l := by
    intro l
    induction l with
    | nil => rfl
    | cons c rest ih =>
        by_cases hc : c = '\\' <;>
          simp [escapeBackslashes.go, specDoubledBackslashes, hc, ih]
  refine ⟨fun s => hgo s.data, ?_, ?_, ?_⟩
  · intro columns chat_history metrics_prompt question fp
    refine ⟨promptSeg1,
      promptSeg2 ++ chat_history ++ promptSeg3 ++ metrics_prompt ++
        promptSeg4 ++ question ++ promptSeg5,
      promptSeg6 ++ readCsvWhatLine (escapeBackslashes fp) ++ promptSeg7 ++
        escapeBackslashes fp ++ promptSeg8 ++ escapeBackslashes fp ++
        promptSeg9 ++ question ++ promptSeg10, ?_⟩
    apply String.ext
    simp [metaPromptText, String.data_append, List.append_assoc]
  · intro gs gs' req model exec
    cases hq : truthyOptStr req.question <;>
      cases hf : truthyOptStr req.filepath <;>
        cases hc : truthyOptStr req.columns <;>
          simp [chat_with_data, hq, hf, hc]
  · intro gs req model exec hq hf hc
    simp [chat_with_data, hq, hf, hc]

/-- C10 witness: a Windows-style client path has each backslash doubled in
the prompt actually sent for the request. -/
theorem c10_witness :
    (chat_with_data ⟨none, ""⟩
        ⟨some "q", none, none, some "C:\\data\\x.csv", some "a, b"⟩
        (fun _ => "") .timedOut).prompt
      = some (metaPromptText "a, b" "No prior conversation." "" "q"
          "C:\\\\data\\\\x.csv") := by
  rw [c10_prompt_embeds_request_fields.2.2.2 ⟨none, ""⟩
    ⟨some "q", none, none, some "C:\\data\\x.csv", some "a, b"⟩
    (fun _ => "") .timedOut (by decide) (by decide) (by decide)]
  rfl

end AIDataAnalystChatbot
